import Mathlib

/-!
Shallow embedding of the buy-vs-rent repository (physicshelper47/real_estate).

Exact-arithmetic model over ℚ of:
  * `calculate_monthly_mortgage_payment` (Cost_benefits_buy_VS_rent.py, lines 6-12)
  * `calculate_buy_vs_rent_with_opportunity_cost` (lines 15-98), modelled as an
    explicit state machine: the Python locals become fields of `SimState`, the
    12-month amortization inner loop becomes `amortizeMonths`, the yearly loop
    body becomes `yearStep`, and the `for year in range(1, horizon+1)` loop
    becomes `runUpTo`.
  * `scan_1D` (sensitivity_test_1d.py, lines 7-16)
  * `run_sensitivity_analysis` (sensitivity_test_2d.py, lines 7-20)
-/

namespace RealEstate

/-- Scenario parameters: the keyword arguments of
`calculate_buy_vs_rent_with_opportunity_cost`, in source order, with the
source's default values for the last three. -/
structure Params where
  home_price : ℚ
  down_payment_percent : ℚ
  mortgage_rate : ℚ
  loan_term_years : ℕ
  property_tax_rate : ℚ
  maintenance_rate : ℚ
  home_appreciation_rate : ℚ
  monthly_rent : ℚ
  rent_increase_rate : ℚ
  household_income : ℚ
  marginal_tax_rate : ℚ
  standard_deduction : ℚ
  time_horizon_years : ℕ
  closing_cost_percent : ℚ := 3/100
  selling_cost_percent : ℚ := 6/100
  investment_return_rate : ℚ := 8/100
deriving DecidableEq, Repr

/-- `calculate_monthly_mortgage_payment(loan_amount, annual_rate, loan_term_years)`. -/
def calculate_monthly_mortgage_payment (loan_amount annual_rate : ℚ)
    (loan_term_years : ℕ) : ℚ :=
  let monthly_rate := annual_rate / 12
  let n_payments := loan_term_years * 12
  if monthly_rate = 0 then
    loan_amount / (n_payments : ℚ)
  else
    loan_amount * (monthly_rate * (1 + monthly_rate) ^ n_payments) /
      ((1 + monthly_rate) ^ n_payments - 1)

/-- One row of the `summary` list built by the simulator (lines 83-96). -/
structure YearRecord where
  year : ℕ
  annual_interest : ℚ
  annual_principal : ℚ
  cumulative_buy_cost : ℚ
  equity_built : ℚ
  appreciated_value : ℚ
  selling_cost : ℚ
  net_cost_of_buying : ℚ
  annual_rent : ℚ
  cumulative_rent_cost : ℚ
  investment_value : ℚ
  tax_savings : ℚ
deriving DecidableEq, Repr

/-- The mutable locals of `calculate_buy_vs_rent_with_opportunity_cost`
(lines 29-40): `home_value` is assigned once from `home_price` and is a state
variable here precisely so that we can *prove* it is never re-assigned. -/
structure SimState where
  home_value : ℚ
  rent : ℚ
  remaining_balance : ℚ
  cumulative_buy_cost : ℚ
  cumulative_rent_cost : ℚ
  equity_built : ℚ
  investment_balance : ℚ
  break_even_year : Option ℕ
  summary : List YearRecord
deriving DecidableEq, Repr

/-- Accumulators of the monthly amortization loop (lines 43-51). -/
structure AmortAcc where
  annual_interest : ℚ
  annual_principal : ℚ
  remaining_balance : ℚ
deriving DecidableEq, Repr

/-- The inner `for _ in range(12)` loop (lines 46-51), for an arbitrary number
of iterations: interest = balance · (rate/12); principal = payment − interest;
accumulate both and reduce the balance. -/
def amortizeMonths (mortgage_rate monthly_payment : ℚ) : ℕ → AmortAcc → AmortAcc
  | 0, acc => acc
  | n + 1, acc =>
      let interest := acc.remaining_balance * (mortgage_rate / 12)
      let principal := monthly_payment - interest
      amortizeMonths mortgage_rate monthly_payment n
        { annual_interest := acc.annual_interest + interest
          annual_principal := acc.annual_principal + principal
          remaining_balance := acc.remaining_balance - principal }

/-- `down_payment = home_price * down_payment_percent` (line 24). -/
def down_payment (p : Params) : ℚ := p.home_price * p.down_payment_percent

/-- `loan_amount = home_price - down_payment` (line 25). -/
def loan_amount (p : Params) : ℚ := p.home_price - down_payment p

/-- `closing_cost = home_price * closing_cost_percent` (line 27). -/
def closing_cost (p : Params) : ℚ := p.home_price * p.closing_cost_percent

/-- `monthly_payment` (line 26). -/
def monthly_payment (p : Params) : ℚ :=
  calculate_monthly_mortgage_payment (loan_amount p) p.mortgage_rate p.loan_term_years

/-- Initial state (lines 29-40). -/
def initState (p : Params) : SimState where
  home_value := p.home_price
  rent := p.monthly_rent
  remaining_balance := loan_amount p
  cumulative_buy_cost := closing_cost p
  cumulative_rent_cost := 0
  equity_built := 0
  investment_balance := down_payment p + closing_cost p
  break_even_year := none
  summary := []

/-- The `summary.append({...})` row built during year `year` from state `st`
(lines 42-96), as a standalone value. -/
def yearRecord (p : Params) (year : ℕ) (st : SimState) : YearRecord :=
  let am := amortizeMonths p.mortgage_rate (monthly_payment p) 12
    { annual_interest := 0, annual_principal := 0,
      remaining_balance := st.remaining_balance }
  let equity_built := st.equity_built + am.annual_principal
  let maintenance := st.home_value * p.maintenance_rate
  let property_tax := st.home_value * p.property_tax_rate
  let itemized_deductions := am.annual_interest + min property_tax 10000
  let deductible_amount := max 0 (itemized_deductions - p.standard_deduction)
  let tax_savings := deductible_amount * p.marginal_tax_rate
  let annual_buy_cost := 12 * monthly_payment p + maintenance + property_tax - tax_savings
  let cumulative_buy_cost := st.cumulative_buy_cost + annual_buy_cost
  let appreciated_value := st.home_value * (1 + p.home_appreciation_rate) ^ year
  let selling_cost := appreciated_value * p.selling_cost_percent
  let net_cost_of_buying :=
    cumulative_buy_cost - equity_built - (appreciated_value - p.home_price) + selling_cost
  let annual_rent := 12 * st.rent
  let cumulative_rent_cost := st.cumulative_rent_cost + annual_rent
  let savings := max 0 (annual_buy_cost - annual_rent)
  let investment_balance := (st.investment_balance + savings) * (1 + p.investment_return_rate)
  { year := year
    annual_interest := am.annual_interest
    annual_principal := am.annual_principal
    cumulative_buy_cost := cumulative_buy_cost
    equity_built := equity_built
    appreciated_value := appreciated_value
    selling_cost := selling_cost
    net_cost_of_buying := net_cost_of_buying
    annual_rent := annual_rent
    cumulative_rent_cost := cumulative_rent_cost
    investment_value := investment_balance
    tax_savings := tax_savings }

/-- The body of `for year in range(1, time_horizon_years + 1)` (lines 42-96). -/
def yearStep (p : Params) (year : ℕ) (st : SimState) : SimState :=
  let am := amortizeMonths p.mortgage_rate (monthly_payment p) 12
    { annual_interest := 0, annual_principal := 0,
      remaining_balance := st.remaining_balance }
  let equity_built := st.equity_built + am.annual_principal
  let maintenance := st.home_value * p.maintenance_rate
  let property_tax := st.home_value * p.property_tax_rate
  let itemized_deductions := am.annual_interest + min property_tax 10000
  let deductible_amount := max 0 (itemized_deductions - p.standard_deduction)
  let tax_savings := deductible_amount * p.marginal_tax_rate
  let annual_buy_cost := 12 * monthly_payment p + maintenance + property_tax - tax_savings
  let cumulative_buy_cost := st.cumulative_buy_cost + annual_buy_cost
  let appreciated_value := st.home_value * (1 + p.home_appreciation_rate) ^ year
  let selling_cost := appreciated_value * p.selling_cost_percent
  let net_cost_of_buying :=
    cumulative_buy_cost - equity_built - (appreciated_value - p.home_price) + selling_cost
  let annual_rent := 12 * st.rent
  let cumulative_rent_cost := st.cumulative_rent_cost + annual_rent
  let rent := st.rent * (1 + p.rent_increase_rate)
  let savings := max 0 (annual_buy_cost - annual_rent)
  let investment_balance := (st.investment_balance + savings) * (1 + p.investment_return_rate)
  let break_even_year :=
    if st.break_even_year = none ∧
        net_cost_of_buying < cumulative_rent_cost - investment_balance then
      some year
    else st.break_even_year
  { home_value := st.home_value
    rent := rent
    remaining_balance := am.remaining_balance
    cumulative_buy_cost := cumulative_buy_cost
    cumulative_rent_cost := cumulative_rent_cost
    equity_built := equity_built
    investment_balance := investment_balance
    break_even_year := break_even_year
    summary := st.summary ++ [yearRecord p year st] }

/-- State after simulating years `1..n` of the yearly loop. -/
def runUpTo (p : Params) : ℕ → SimState
  | 0 => initState p
  | n + 1 => yearStep p (n + 1) (runUpTo p n)

/-- `calculate_buy_vs_rent_with_opportunity_cost` (lines 15-98): the summary
rows and the (possibly null) break-even year. -/
def calculate_buy_vs_rent_with_opportunity_cost (p : Params) :
    List YearRecord × Option ℕ :=
  ((runUpTo p p.time_horizon_years).summary,
   (runUpTo p p.time_horizon_years).break_even_year)

/-- The numeric scenario fields a sweep driver may substitute, i.e. the valid
dictionary keys of `test_params[param_name] = value` for fractional values. -/
inductive ParamName where
  | home_price
  | down_payment_percent
  | mortgage_rate
  | property_tax_rate
  | maintenance_rate
  | home_appreciation_rate
  | monthly_rent
  | rent_increase_rate
  | household_income
  | marginal_tax_rate
  | standard_deduction
  | closing_cost_percent
  | selling_cost_percent
  | investment_return_rate
deriving DecidableEq, Repr

/-- `test_params[param_name] = value` for one field. -/
def setParam (p : Params) : ParamName → ℚ → Params
  | .home_price, v => { p with home_price := v }
  | .down_payment_percent, v => { p with down_payment_percent := v }
  | .mortgage_rate, v => { p with mortgage_rate := v }
  | .property_tax_rate, v => { p with property_tax_rate := v }
  | .maintenance_rate, v => { p with maintenance_rate := v }
  | .home_appreciation_rate, v => { p with home_appreciation_rate := v }
  | .monthly_rent, v => { p with monthly_rent := v }
  | .rent_increase_rate, v => { p with rent_increase_rate := v }
  | .household_income, v => { p with household_income := v }
  | .marginal_tax_rate, v => { p with marginal_tax_rate := v }
  | .standard_deduction, v => { p with standard_deduction := v }
  | .closing_cost_percent, v => { p with closing_cost_percent := v }
  | .selling_cost_percent, v => { p with selling_cost_percent := v }
  | .investment_return_rate, v => { p with investment_return_rate := v }

/-- Read one field back, to state frame conditions. -/
def getParam (p : Params) : ParamName → ℚ
  | .home_price => p.home_price
  | .down_payment_percent => p.down_payment_percent
  | .mortgage_rate => p.mortgage_rate
  | .property_tax_rate => p.property_tax_rate
  | .maintenance_rate => p.maintenance_rate
  | .home_appreciation_rate => p.home_appreciation_rate
  | .monthly_rent => p.monthly_rent
  | .rent_increase_rate => p.rent_increase_rate
  | .household_income => p.household_income
  | .marginal_tax_rate => p.marginal_tax_rate
  | .standard_deduction => p.standard_deduction
  | .closing_cost_percent => p.closing_cost_percent
  | .selling_cost_percent => p.selling_cost_percent
  | .investment_return_rate => p.investment_return_rate

/-- The scenario `scan_1D` builds for one swept value (sensitivity_test_1d.py,
lines 10-13): copy the base dict, and when the swept name is
`rent_increase_rate` first overwrite `home_appreciation_rate` with the value,
then set the swept field itself. -/
def scan1DScenario (base : Params) (param_name : ParamName) (value : ℚ) : Params :=
  let test_params :=
    if param_name = ParamName.rent_increase_rate then
      setParam base ParamName.home_appreciation_rate value
    else base
  setParam test_params param_name value

/-- `break_even_year if break_even_year else 31` (truthiness: `None` and `0`
both fall to the sentinel `31`). -/
def recordBE : Option ℕ → ℕ
  | none => 31
  | some y => if y = 0 then 31 else y

/-- `scan_1D(scan_range, base_params, param_name)` (sensitivity_test_1d.py,
lines 7-16). -/
def scan_1D (scan_range : List ℚ) (base_params : Params) (param_name : ParamName) :
    List ℕ :=
  scan_range.map fun value =>
    recordBE (calculate_buy_vs_rent_with_opportunity_cost
      (scan1DScenario base_params param_name value)).2

/-- `run_sensitivity_analysis(base_params, price_range, rate_range, key_names)`
(sensitivity_test_2d.py, lines 7-20): outer loop over the first range, inner
loop over the second. -/
def run_sensitivity_analysis (base_params : Params) (price_range rate_range : List ℚ)
    (key1 key2 : ParamName) : List (List ℕ) :=
  price_range.map fun v1 =>
    rate_range.map fun v2 =>
      recordBE (calculate_buy_vs_rent_with_opportunity_cost
        (setParam (setParam base_params key1 v1) key2 v2)).2

/-- Modelled from the spec ("first year where `net cost of buying <
(cumulative rent cost − investment balance)`"): the first-crossing year read
off a list of Year records; compared against the simulator's latched
`break_even_year` in claim C1. -/
def firstCrossingYear : List YearRecord → Option ℕ
  | [] => none
  | r :: rs =>
      if r.net_cost_of_buying < r.cumulative_rent_cost - r.investment_value then
        some r.year
      else firstCrossingYear rs

/-- A minimal concrete scenario used to instantiate theorems with hypotheses:
a 1200 fully financed at rate 0 over a 1-year term and horizon, with every
other rate and the rent set to 0. -/
def tinyParams : Params where
  home_price := 1200
  down_payment_percent := 0
  mortgage_rate := 0
  loan_term_years := 1
  property_tax_rate := 0
  maintenance_rate := 0
  home_appreciation_rate := 0
  monthly_rent := 0
  rent_increase_rate := 0
  household_income := 0
  marginal_tax_rate := 0
  standard_deduction := 0
  time_horizon_years := 1
  closing_cost_percent := 0
  selling_cost_percent := 0
  investment_return_rate := 0

/-- The single summary row the simulator produces on `tinyParams`. -/
def tinyRecord : YearRecord where
  year := 1
  annual_interest := 0
  annual_principal := 1200
  cumulative_buy_cost := 1200
  equity_built := 1200
  appreciated_value := 1200
  selling_cost := 0
  net_cost_of_buying := 0
  annual_rent := 0
  cumulative_rent_cost := 0
  investment_value := 1200
  tax_savings := 0

/-! ### Basic unfolding lemmas for the year step -/

theorem yearStep_home_value (p : Params) (y : ℕ) (st : SimState) :
    (yearStep p y st).home_value = st.home_value := rfl

theorem yearStep_summary (p : Params) (y : ℕ) (st : SimState) :
    (yearStep p y st).summary = st.summary ++ [yearRecord p y st] := rfl

theorem yearRecord_year (p : Params) (y : ℕ) (st : SimState) :
    (yearRecord p y st).year = y := rfl

theorem yearRecord_appreciated_value (p : Params) (y : ℕ) (st : SimState) :
    (yearRecord p y st).appreciated_value =
      st.home_value * (1 + p.home_appreciation_rate) ^ y := rfl

/-- `home_value` is assigned once from `home_price` (line 29) and never
re-assigned by the yearly loop. -/
theorem runUpTo_home_value (p : Params) : ∀ n, (runUpTo p n).home_value = p.home_price
  | 0 => rfl
  | n + 1 => by
      rw [runUpTo, yearStep_home_value]
      exact runUpTo_home_value p n

/-- The summary list grows by exactly one row per simulated year. -/
theorem runUpTo_summary_length (p : Params) :
    ∀ n, (runUpTo p n).summary.length = n
  | 0 => rfl
  | n + 1 => by
      rw [runUpTo, yearStep_summary, List.length_append,
        runUpTo_summary_length p n]
      rfl

/-- Row `i` of the summary after `n` years is the record produced by the year
`i+1` loop iteration from the state after `i` years, and rows are never
modified once appended. -/
theorem runUpTo_summary_getElem (p : Params) :
    ∀ n i, (runUpTo p n).summary[i]? =
      if i < n then some (yearRecord p (i + 1) (runUpTo p i)) else none
  | 0, i => by simp [runUpTo, initState]
  | n + 1, i => by
      rw [runUpTo, yearStep_summary, List.getElem?_append,
        runUpTo_summary_length p n, runUpTo_summary_getElem p n i]
      rcases lt_trichotomy i n with h | h | h
      · simp [h, Nat.lt_succ_of_lt h]
      · subst h
        simp
      · have h1 : ¬ i < n := Nat.not_lt.mpr h.le
        have h2 : ¬ i < n + 1 := Nat.not_lt.mpr h
        have h3 : 0 < i - n := Nat.sub_pos_of_lt h
        simp only [h1, h2, if_false, if_neg]
        match hd : i - n, h3 with
        | d + 1, _ => rfl

/-- C5: for every scenario with positive time horizon, the simulator emits
exactly `time_horizon_years` Year records, one per simulated year, with year
numbers `1..horizon` in strictly ascending order with no gaps (row `i` carries
year number `i+1`); each row is appended exactly once by its year's loop
iteration and never modified afterwards (third conjunct: a row already present
after `n` years is identical after any later year `m ≥ n`). -/
theorem C5_year_records (p : Params) (_hpos : 0 < p.time_horizon_years) :
    (calculate_buy_vs_rent_with_opportunity_cost p).1.length = p.time_horizon_years ∧
    (∀ i, ((calculate_buy_vs_rent_with_opportunity_cost p).1[i]?).map YearRecord.year =
      if i < p.time_horizon_years then some (i + 1) else none) ∧
    ∀ n m i, n ≤ m → i < n →
      (runUpTo p m).summary[i]? = (runUpTo p n).summary[i]? := by
  refine ⟨runUpTo_summary_length p _, fun i => ?_, fun n m i hnm hin => ?_⟩
  · rw [calculate_buy_vs_rent_with_opportunity_cost, runUpTo_summary_getElem]
    by_cases h : i < p.time_horizon_years <;> simp [h, yearRecord_year]
  · rw [runUpTo_summary_getElem, runUpTo_summary_getElem,
      if_pos hin, if_pos (lt_of_lt_of_le hin hnm)]

theorem C5_year_records_witness :
    0 < (1 : ℕ) ∧
    ((calculate_buy_vs_rent_with_opportunity_cost tinyParams).1.length =
        tinyParams.time_horizon_years ∧
      (∀ i, ((calculate_buy_vs_rent_with_opportunity_cost tinyParams).1[i]?).map
          YearRecord.year =
        if i < tinyParams.time_horizon_years then some (i + 1) else none) ∧
      ∀ n m i, n ≤ m → i < n →
        (runUpTo tinyParams m).summary[i]? = (runUpTo tinyParams n).summary[i]?) :=
  ⟨Nat.zero_lt_one, C5_year_records tinyParams Nat.zero_lt_one⟩

theorem yearRecord_tax_savings (p : Params) (y : ℕ) (st : SimState) :
    (yearRecord p y st).tax_savings =
      max 0 ((amortizeMonths p.mortgage_rate (monthly_payment p) 12
          { annual_interest := 0, annual_principal := 0,
            remaining_balance := st.remaining_balance }).annual_interest +
        min (st.home_value * p.property_tax_rate) 10000 - p.standard_deduction) *
        p.marginal_tax_rate := rfl

/-- The yearly ownership-cost increment: maintenance and property tax are both
`st.home_value` times the respective rate (lines 54-61). -/
theorem yearRecord_cumulative_buy_cost (p : Params) (y : ℕ) (st : SimState) :
    (yearRecord p y st).cumulative_buy_cost =
      st.cumulative_buy_cost +
        (12 * monthly_payment p + st.home_value * p.maintenance_rate +
          st.home_value * p.property_tax_rate - (yearRecord p y st).tax_savings) := rfl

/-- C9: every simulated year charges maintenance and property tax on the
original purchase price: the `home_value` local is set to `home_price` once and
never re-appreciated (first conjunct), so each year's ownership-cost increment
is `12·payment + home_price·maintenance_rate + home_price·property_tax_rate −
tax_savings` (third conjunct), while the appreciated home value reported in
row `i` (year `i+1`) is `home_price · (1+appreciation rate)^(i+1)` (second
conjunct). -/
theorem C9_original_price_for_tax_and_maintenance (p : Params) :
    (∀ n, (runUpTo p n).home_value = p.home_price) ∧
    (∀ i, ((calculate_buy_vs_rent_with_opportunity_cost p).1[i]?).map
        YearRecord.appreciated_value =
      if i < p.time_horizon_years then
        some (p.home_price * (1 + p.home_appreciation_rate) ^ (i + 1))
      else none) ∧
    (∀ i r, (calculate_buy_vs_rent_with_opportunity_cost p).1[i]? = some r →
      r.cumulative_buy_cost =
        (runUpTo p i).cumulative_buy_cost +
          (12 * monthly_payment p + p.home_price * p.maintenance_rate +
            p.home_price * p.property_tax_rate - r.tax_savings)) := by
  refine ⟨runUpTo_home_value p, fun i => ?_, fun i r hr => ?_⟩
  · rw [calculate_buy_vs_rent_with_opportunity_cost, runUpTo_summary_getElem]
    by_cases h : i < p.time_horizon_years <;>
      simp [h, yearRecord_appreciated_value, runUpTo_home_value]
  · rw [calculate_buy_vs_rent_with_opportunity_cost, runUpTo_summary_getElem] at hr
    by_cases h : i < p.time_horizon_years
    · rw [if_pos h] at hr
      cases hr
      rw [yearRecord_cumulative_buy_cost, runUpTo_home_value]
    · rw [if_neg h] at hr
      cases hr

theorem tiny_row_eval :
    (calculate_buy_vs_rent_with_opportunity_cost tinyParams).1[0]? = some tinyRecord := by
  norm_num [calculate_buy_vs_rent_with_opportunity_cost, runUpTo, yearStep, yearRecord,
    initState, amortizeMonths, monthly_payment, calculate_monthly_mortgage_payment,
    loan_amount, down_payment, closing_cost, tinyParams, tinyRecord]

theorem C9_original_price_witness :
    (calculate_buy_vs_rent_with_opportunity_cost tinyParams).1[0]? = some tinyRecord ∧
    tinyRecord.cumulative_buy_cost =
      (runUpTo tinyParams 0).cumulative_buy_cost +
        (12 * monthly_payment tinyParams +
          tinyParams.home_price * tinyParams.maintenance_rate +
          tinyParams.home_price * tinyParams.property_tax_rate -
          tinyRecord.tax_savings) :=
  ⟨tiny_row_eval,
   (C9_original_price_for_tax_and_maintenance tinyParams).2.2 0 tinyRecord tiny_row_eval⟩

/-- C7: for every principal `P` and positive term `T`, a zero annual rate takes
the `monthly_rate == 0` branch (line 9-10) and the payment is exactly
`P / (T·12)`: linear amortization with no division by zero. -/
theorem C7_zero_rate_payment (P : ℚ) (T : ℕ) (_hT : 0 < T) :
    calculate_monthly_mortgage_payment P 0 T = P / ((T : ℚ) * 12) := by
  rw [calculate_monthly_mortgage_payment]
  norm_num

theorem C7_zero_rate_payment_witness :
    0 < 30 ∧ calculate_monthly_mortgage_payment 418000 0 30 = 418000 / ((30 : ℚ) * 12) :=
  ⟨by decide, C7_zero_rate_payment 418000 30 (by decide)⟩

/-! ### Amortization: the explicit month-by-month schedule retires the loan -/

/-- Partial sums of the geometric series `1 + x + x² + ⋯` (the value a constant
payment accumulates to under monthly compounding). -/
def geom (x : ℚ) : ℕ → ℚ
  | 0 => 0
  | n + 1 => geom x n + x ^ n

theorem geom_one (n : ℕ) : geom 1 n = n := by
  induction n with
  | zero => rfl
  | succ n ih => rw [geom, ih]; push_cast; ring

theorem sub_one_mul_geom (x : ℚ) (n : ℕ) : (x - 1) * geom x n = x ^ n - 1 := by
  induction n with
  | zero => simp [geom]
  | succ n ih => rw [geom, mul_add, ih, pow_succ]; ring

theorem geom_add (x : ℚ) (a b : ℕ) :
    geom x (a + b) = geom x a + x ^ a * geom x b := by
  induction b with
  | zero => simp [geom]
  | succ b ih =>
      rw [← Nat.add_assoc, geom, geom, ih, pow_add]
      ring

/-- Each month's principal is taken out of the remaining balance:
`annual_principal + remaining_balance` is invariant across the inner loop. -/
theorem amortizeMonths_principal_add_balance (r M : ℚ) :
    ∀ (n : ℕ) (acc : AmortAcc),
      (amortizeMonths r M n acc).annual_principal +
        (amortizeMonths r M n acc).remaining_balance =
      acc.annual_principal + acc.remaining_balance
  | 0, _ => rfl
  | n + 1, acc => by
      rw [amortizeMonths, amortizeMonths_principal_add_balance r M n]
      ring

/-- Closed form of the balance after `n` months of the inner loop. -/
theorem amortizeMonths_balance (r M : ℚ) :
    ∀ (n : ℕ) (acc : AmortAcc),
      (amortizeMonths r M n acc).remaining_balance =
        acc.remaining_balance * (1 + r / 12) ^ n - M * geom (1 + r / 12) n
  | 0, _ => by simp [amortizeMonths, geom]
  | n + 1, acc => by
      rw [amortizeMonths, amortizeMonths_balance r M n]
      show (acc.remaining_balance - (M - acc.remaining_balance * (r / 12))) *
          (1 + r / 12) ^ n - M * geom (1 + r / 12) n = _
      rw [geom, pow_succ]
      ring

/-- Closed form of the outstanding balance after `n` simulated years. -/
theorem runUpTo_remaining_balance (p : Params) :
    ∀ n, (runUpTo p n).remaining_balance =
      loan_amount p * (1 + p.mortgage_rate / 12) ^ (12 * n) -
        monthly_payment p * geom (1 + p.mortgage_rate / 12) (12 * n)
  | 0 => by simp [runUpTo, initState, geom]
  | n + 1 => by
      have hstep : (runUpTo p (n + 1)).remaining_balance =
          (amortizeMonths p.mortgage_rate (monthly_payment p) 12
            { annual_interest := 0, annual_principal := 0,
              remaining_balance := (runUpTo p n).remaining_balance }).remaining_balance := rfl
      rw [hstep, amortizeMonths_balance, runUpTo_remaining_balance p n]
      have h12 : 12 * (n + 1) = 12 + 12 * n := by ring
      rw [h12, geom_add, pow_add]
      ring

/-- Accumulated equity equals the sum of the yearly principal entries of the
summary rows. -/
theorem runUpTo_equity_eq_sum (p : Params) :
    ∀ n, (runUpTo p n).equity_built =
      ((runUpTo p n).summary.map YearRecord.annual_principal).sum
  | 0 => rfl
  | n + 1 => by
      have hstep : (runUpTo p (n + 1)).equity_built =
          (runUpTo p n).equity_built +
            (yearRecord p (n + 1) (runUpTo p n)).annual_principal := rfl
      rw [hstep, runUpTo_equity_eq_sum p n, runUpTo, yearStep_summary]
      simp

/-- Equity plus outstanding balance is the original loan amount, every year. -/
theorem runUpTo_equity_add_balance (p : Params) :
    ∀ n, (runUpTo p n).equity_built + (runUpTo p n).remaining_balance = loan_amount p
  | 0 => by simp [runUpTo, initState]
  | n + 1 => by
      have hstep : (runUpTo p (n + 1)).equity_built +
            (runUpTo p (n + 1)).remaining_balance =
          ((runUpTo p n).equity_built +
            (amortizeMonths p.mortgage_rate (monthly_payment p) 12
              { annual_interest := 0, annual_principal := 0,
                remaining_balance := (runUpTo p n).remaining_balance }).annual_principal) +
            (amortizeMonths p.mortgage_rate (monthly_payment p) 12
              { annual_interest := 0, annual_principal := 0,
                remaining_balance := (runUpTo p n).remaining_balance }).remaining_balance := rfl
      rw [hstep, add_assoc, amortizeMonths_principal_add_balance]
      show (runUpTo p n).equity_built + (0 + (runUpTo p n).remaining_balance) = _
      rw [zero_add]
      exact runUpTo_equity_add_balance p n

/-- The constant payment from `calculate_monthly_mortgage_payment` drives the
explicit month-by-month balance to exactly zero after `T·12` months. -/
theorem payment_retires (L r : ℚ) (T : ℕ) (hT : 0 < T) (hr : 0 ≤ r) :
    L * (1 + r / 12) ^ (12 * T) -
      calculate_monthly_mortgage_payment L r T * geom (1 + r / 12) (12 * T) = 0 := by
  rcases eq_or_lt_of_le hr with h0 | hpos
  · rw [calculate_monthly_mortgage_payment, ← h0]
    norm_num [geom_one]
    have hT12 : ((T * 12 : ℕ) : ℚ) ≠ 0 := by positivity
    field_simp
    ring
  · have hm : 0 < r / 12 := by positivity
    have hx : 1 < 1 + r / 12 := by linarith
    have hn : 12 * T ≠ 0 := by omega
    have hxn : 1 < (1 + r / 12) ^ (12 * T) := one_lt_pow₀ hx hn
    have hden : (1 + r / 12) ^ (12 * T) - 1 ≠ 0 := sub_ne_zero.mpr (ne_of_gt hxn)
    have hgeom : r / 12 * geom (1 + r / 12) (12 * T) = (1 + r / 12) ^ (12 * T) - 1 := by
      have h := sub_one_mul_geom (1 + r / 12) (12 * T)
      calc r / 12 * geom (1 + r / 12) (12 * T)
          = (1 + r / 12 - 1) * geom (1 + r / 12) (12 * T) := by ring
        _ = (1 + r / 12) ^ (12 * T) - 1 := h
    rw [calculate_monthly_mortgage_payment]
    rw [if_neg (ne_of_gt hm), Nat.mul_comm T 12]
    have h2 : L * (r / 12 * (1 + r / 12) ^ (12 * T)) / ((1 + r / 12) ^ (12 * T) - 1) *
          geom (1 + r / 12) (12 * T) =
        L * (1 + r / 12) ^ (12 * T) * (r / 12 * geom (1 + r / 12) (12 * T)) /
          ((1 + r / 12) ^ (12 * T) - 1) := by
      ring
    rw [h2, hgeom, mul_div_assoc, div_self hden, mul_one, sub_self]

/-- C4: when the loan term equals the time horizon (and the scenario is valid:
positive horizon, non-negative rate), the sum over all simulated years of that
year's principal paid is exactly the original loan amount
`home_price − down_payment`: the explicit month-by-month amortization with the
computed constant payment fully retires the loan, exactly in the exact
(rational) arithmetic of this embedding. -/
theorem C4_total_principal_retires_loan (p : Params)
    (hT : p.loan_term_years = p.time_horizon_years)
    (hpos : 0 < p.time_horizon_years) (hr : 0 ≤ p.mortgage_rate) :
    (((calculate_buy_vs_rent_with_opportunity_cost p).1).map
        YearRecord.annual_principal).sum = loan_amount p := by
  have hzero : (runUpTo p p.time_horizon_years).remaining_balance = 0 := by
    rw [runUpTo_remaining_balance]
    have h := payment_retires (loan_amount p) p.mortgage_rate p.time_horizon_years hpos hr
    simpa only [monthly_payment, hT] using h
  have hequity : (runUpTo p p.time_horizon_years).equity_built = loan_amount p := by
    have h := runUpTo_equity_add_balance p p.time_horizon_years
    rwa [hzero, add_zero] at h
  rw [calculate_buy_vs_rent_with_opportunity_cost, ← runUpTo_equity_eq_sum]
  exact hequity

theorem C4_total_principal_witness :
    tinyParams.loan_term_years = tinyParams.time_horizon_years ∧
    0 < tinyParams.time_horizon_years ∧ 0 ≤ tinyParams.mortgage_rate ∧
    (((calculate_buy_vs_rent_with_opportunity_cost tinyParams).1).map
        YearRecord.annual_principal).sum = loan_amount tinyParams :=
  ⟨rfl, by decide, le_refl 0,
   C4_total_principal_retires_loan tinyParams rfl (by decide) (le_refl 0)⟩

/-! ### Break-even latch (lines 79-81) versus first crossing -/

theorem yearStep_break_even (p : Params) (y : ℕ) (st : SimState) :
    (yearStep p y st).break_even_year =
      if st.break_even_year = none ∧
          (yearRecord p y st).net_cost_of_buying <
            (yearRecord p y st).cumulative_rent_cost -
              (yearRecord p y st).investment_value then
        some y
      else st.break_even_year := rfl

theorem firstCrossingYear_append_of_some (l : List YearRecord) (r : YearRecord)
    (y : ℕ) (h : firstCrossingYear l = some y) :
    firstCrossingYear (l ++ [r]) = some y := by
  induction l with
  | nil => simp [firstCrossingYear] at h
  | cons a l ih =>
      rw [List.cons_append, firstCrossingYear]
      rw [firstCrossingYear] at h
      split at h
      · rw [if_pos (by assumption)]
        exact h
      · rw [if_neg (by assumption)]
        exact ih h

theorem firstCrossingYear_append_of_none (l : List YearRecord) (r : YearRecord)
    (h : firstCrossingYear l = none) :
    firstCrossingYear (l ++ [r]) =
      if r.net_cost_of_buying < r.cumulative_rent_cost - r.investment_value then
        some r.year
      else none := by
  induction l with
  | nil => rfl
  | cons a l ih =>
      rw [List.cons_append, firstCrossingYear]
      rw [firstCrossingYear] at h
      split at h
      · exact absurd h (by simp)
      · rw [if_neg (by assumption)]
        exact ih h

theorem firstCrossingYear_eq_none_iff (l : List YearRecord) :
    firstCrossingYear l = none ↔
      ∀ r ∈ l, ¬ r.net_cost_of_buying < r.cumulative_rent_cost - r.investment_value := by
  induction l with
  | nil => simp [firstCrossingYear]
  | cons a l ih =>
      rw [firstCrossingYear]
      by_cases h : a.net_cost_of_buying < a.cumulative_rent_cost - a.investment_value
      · rw [if_pos h]
        exact iff_of_false (by simp) (fun hall => hall a (List.mem_cons_self a l) h)
      · rw [if_neg h, ih]
        constructor
        · intro hall r hr
          rcases List.mem_cons.mp hr with rfl | hr
          · exact h
          · exact hall r hr
        · intro hall r hr
          exact hall r (List.mem_cons_of_mem a hr)

/-- The latched `break_even_year` always equals the first crossing of the rows
emitted so far. -/
theorem runUpTo_break_even_eq_firstCrossing (p : Params) :
    ∀ n, (runUpTo p n).break_even_year = firstCrossingYear (runUpTo p n).summary
  | 0 => rfl
  | n + 1 => by
      have ih := runUpTo_break_even_eq_firstCrossing p n
      rw [runUpTo, yearStep_break_even, yearStep_summary]
      cases hbe : (runUpTo p n).break_even_year with
      | some y =>
          rw [hbe] at ih
          rw [firstCrossingYear_append_of_some _ _ y ih.symm]
          simp
      | none =>
          rw [hbe] at ih
          rw [firstCrossingYear_append_of_none _ _ ih.symm]
          simp [yearRecord_year]

/-- A latched break-even year is always one of the simulated years `1..n`. -/
theorem runUpTo_break_even_mem (p : Params) :
    ∀ n y, (runUpTo p n).break_even_year = some y → 1 ≤ y ∧ y ≤ n
  | 0, y, h => by simp [runUpTo, initState] at h
  | n + 1, y, h => by
      rw [runUpTo, yearStep_break_even] at h
      split at h
      · cases h
        omega
      · have := runUpTo_break_even_mem p n y h
        omega

/-- C1: the simulator's break-even year is the first-crossing year of the
emitted trajectory: the first row (row `i` is year `i+1`, by `C5`) whose net
cost of buying is strictly below cumulative rent cost minus investment balance
as of that year; the latch (line 80) never overwrites it once set, and it is
null exactly when no row in `1..horizon` satisfies the inequality. -/
theorem C1_break_even_is_first_crossing (p : Params) :
    (calculate_buy_vs_rent_with_opportunity_cost p).2 =
      firstCrossingYear (calculate_buy_vs_rent_with_opportunity_cost p).1 ∧
    ((calculate_buy_vs_rent_with_opportunity_cost p).2 = none ↔
      ∀ r ∈ (calculate_buy_vs_rent_with_opportunity_cost p).1,
        ¬ r.net_cost_of_buying < r.cumulative_rent_cost - r.investment_value) := by
  constructor
  · exact runUpTo_break_even_eq_firstCrossing p p.time_horizon_years
  · rw [calculate_buy_vs_rent_with_opportunity_cost,
      runUpTo_break_even_eq_firstCrossing p p.time_horizon_years]
    exact firstCrossingYear_eq_none_iff _

/-! ### Sweep drivers -/

theorem scan_1D_cell (scan_range : List ℚ) (base : Params) (name : ParamName)
    (i : ℕ) (hi : i < scan_range.length) :
    (scan_1D scan_range base name)[i]? =
      some (recordBE (calculate_buy_vs_rent_with_opportunity_cost
        (scan1DScenario base name (scan_range.get ⟨i, hi⟩))).2) := by
  rw [scan_1D, List.getElem?_map, List.getElem?_eq_getElem hi]
  rfl

theorem matrix_cell (base : Params) (r1 r2 : List ℚ) (k1 k2 : ParamName)
    (i j : ℕ) (hi : i < r1.length) (hj : j < r2.length) :
    ((run_sensitivity_analysis base r1 r2 k1 k2)[i]?).bind (fun row => row[j]?) =
      some (recordBE (calculate_buy_vs_rent_with_opportunity_cost
        (setParam (setParam base k1 (r1.get ⟨i, hi⟩)) k2 (r2.get ⟨j, hj⟩))).2) := by
  rw [run_sensitivity_analysis, List.getElem?_map, List.getElem?_eq_getElem hi]
  show (List.map _ r2)[j]? = _
  rw [List.getElem?_map, List.getElem?_eq_getElem hj]
  rfl

/-- C2 (amended): both sweep drivers record the fixed constant `31` exactly
when the simulator's break-even year is null — not `horizon+1`, which `31`
matches only for a 30-year horizon — and record the simulator's break-even
year itself otherwise (a latched year is ≥ 1, so Python truthiness never
remaps it). -/
theorem C2_sentinel_is_31 :
    (∀ p : Params, (calculate_buy_vs_rent_with_opportunity_cost p).2 = none →
      recordBE (calculate_buy_vs_rent_with_opportunity_cost p).2 = 31) ∧
    (∀ (p : Params) (y : ℕ), (calculate_buy_vs_rent_with_opportunity_cost p).2 = some y →
      recordBE (calculate_buy_vs_rent_with_opportunity_cost p).2 = y) ∧
    (∀ (scan_range : List ℚ) (base : Params) (name : ParamName) (i : ℕ)
        (hi : i < scan_range.length),
      (scan_1D scan_range base name)[i]? =
        some (recordBE (calculate_buy_vs_rent_with_opportunity_cost
          (scan1DScenario base name (scan_range.get ⟨i, hi⟩))).2)) ∧
    (∀ (base : Params) (r1 r2 : List ℚ) (k1 k2 : ParamName) (i j : ℕ)
        (hi : i < r1.length) (hj : j < r2.length),
      ((run_sensitivity_analysis base r1 r2 k1 k2)[i]?).bind (fun row => row[j]?) =
        some (recordBE (calculate_buy_vs_rent_with_opportunity_cost
          (setParam (setParam base k1 (r1.get ⟨i, hi⟩)) k2 (r2.get ⟨j, hj⟩))).2)) := by
  refine ⟨fun p h => by rw [h]; rfl, fun p y h => ?_, scan_1D_cell, matrix_cell⟩
  have hy := runUpTo_break_even_mem p p.time_horizon_years y h
  rw [h, recordBE, if_neg (by omega)]

theorem C2_sentinel_witness :
    0 < ([(0 : ℚ)]).length ∧
    (scan_1D [0] tinyParams ParamName.mortgage_rate)[0]? =
      some (recordBE (calculate_buy_vs_rent_with_opportunity_cost
        (scan1DScenario tinyParams ParamName.mortgage_rate
          (([(0 : ℚ)]).get ⟨0, Nat.zero_lt_one⟩))).2) :=
  ⟨Nat.zero_lt_one,
   C2_sentinel_is_31.2.2.1 [0] tinyParams ParamName.mortgage_rate 0 Nat.zero_lt_one⟩

theorem tiny_scenario_eval :
    scan1DScenario tinyParams ParamName.mortgage_rate 0 = tinyParams := rfl

theorem tiny_break_even_none :
    (calculate_buy_vs_rent_with_opportunity_cost tinyParams).2 = none := by
  norm_num [calculate_buy_vs_rent_with_opportunity_cost, runUpTo, yearStep, yearRecord,
    initState, amortizeMonths, monthly_payment, calculate_monthly_mortgage_payment,
    loan_amount, down_payment, closing_cost, tinyParams]

/-- C2 as stated is false: on a 1-year-horizon scenario whose break-even year
is null, the 1D driver records `31`, not `horizon + 1 = 2`. -/
theorem C2_sentinel_counterexample :
    (calculate_buy_vs_rent_with_opportunity_cost
      (scan1DScenario tinyParams ParamName.mortgage_rate 0)).2 = none ∧
    scan_1D [0] tinyParams ParamName.mortgage_rate = [31] ∧
    tinyParams.time_horizon_years + 1 = 2 ∧
    scan_1D [0] tinyParams ParamName.mortgage_rate ≠
      [tinyParams.time_horizon_years + 1] := by
  have h31 : scan_1D [0] tinyParams ParamName.mortgage_rate = [31] := by
    rw [scan_1D, List.map_cons, List.map_nil, tiny_scenario_eval, tiny_break_even_none]
    rfl
  refine ⟨?_, h31, rfl, ?_⟩
  · rw [tiny_scenario_eval]
    exact tiny_break_even_none
  · rw [h31]
    decide

/-- C8: the 2D sweep is a row-major matrix — outer loop over the first range,
inner loop over the second — whose cell `(i, j)` is the recorded break-even
year (or the never-breaks-even marker) of the simulator run on the base
scenario with the first swept field set to `range1[i]` and the second to
`range2[j]`, all other fields unchanged. -/
theorem C8_row_major_matrix (base : Params) (r1 r2 : List ℚ) (k1 k2 : ParamName) :
    (run_sensitivity_analysis base r1 r2 k1 k2).length = r1.length ∧
    (∀ row ∈ run_sensitivity_analysis base r1 r2 k1 k2, row.length = r2.length) ∧
    ∀ (i j : ℕ) (hi : i < r1.length) (hj : j < r2.length),
      ((run_sensitivity_analysis base r1 r2 k1 k2)[i]?).bind (fun row => row[j]?) =
        some (recordBE (calculate_buy_vs_rent_with_opportunity_cost
          (setParam (setParam base k1 (r1.get ⟨i, hi⟩)) k2 (r2.get ⟨j, hj⟩))).2) := by
  refine ⟨?_, ?_, matrix_cell base r1 r2 k1 k2⟩
  · rw [run_sensitivity_analysis, List.length_map]
  · intro row hrow
    rw [run_sensitivity_analysis] at hrow
    obtain ⟨v, _, rfl⟩ := List.mem_map.mp hrow
    rw [List.length_map]

theorem C8_row_major_witness :
    0 < ([(0 : ℚ)]).length ∧
    ((run_sensitivity_analysis tinyParams [0] [0] ParamName.mortgage_rate
        ParamName.property_tax_rate)[0]?).bind (fun row => row[0]?) =
      some (recordBE (calculate_buy_vs_rent_with_opportunity_cost
        (setParam (setParam tinyParams ParamName.mortgage_rate
            (([(0 : ℚ)]).get ⟨0, Nat.zero_lt_one⟩))
          ParamName.property_tax_rate (([(0 : ℚ)]).get ⟨0, Nat.zero_lt_one⟩))).2) :=
  ⟨Nat.zero_lt_one,
   (C8_row_major_matrix tinyParams [0] [0] ParamName.mortgage_rate
      ParamName.property_tax_rate).2.2 0 0 Nat.zero_lt_one Nat.zero_lt_one⟩

/-- C3: a 1D sweep on `rent_increase_rate` passes the swept value to the
simulator as *both* rent increase rate and home appreciation rate (with every
other field unchanged); for any other swept parameter only that one field
differs from the base scenario. -/
theorem C3_rent_sweep_couples_appreciation (base : Params) (v : ℚ) :
    (getParam (scan1DScenario base ParamName.rent_increase_rate v)
        ParamName.rent_increase_rate = v ∧
      getParam (scan1DScenario base ParamName.rent_increase_rate v)
        ParamName.home_appreciation_rate = v ∧
      ∀ f, f ≠ ParamName.rent_increase_rate → f ≠ ParamName.home_appreciation_rate →
        getParam (scan1DScenario base ParamName.rent_increase_rate v) f =
          getParam base f) ∧
    (∀ name, name ≠ ParamName.rent_increase_rate →
      getParam (scan1DScenario base name v) name = v ∧
      ∀ f, f ≠ name →
        getParam (scan1DScenario base name v) f = getParam base f) ∧
    (∀ name,
      (scan1DScenario base name v).loan_term_years = base.loan_term_years ∧
      (scan1DScenario base name v).time_horizon_years = base.time_horizon_years) := by
  refine ⟨⟨rfl, rfl, fun f h1 h2 => ?_⟩, fun name hname => ⟨?_, fun f hf => ?_⟩, fun name => ?_⟩
  · cases f <;> simp_all [scan1DScenario, setParam, getParam]
  · cases name <;> simp_all [scan1DScenario, setParam, getParam]
  · cases name <;> cases f <;> simp_all [scan1DScenario, setParam, getParam]
  · cases name <;> exact ⟨rfl, rfl⟩

theorem C3_rent_sweep_couples_witness :
    ParamName.mortgage_rate ≠ ParamName.rent_increase_rate ∧
    getParam (scan1DScenario tinyParams ParamName.mortgage_rate (1/2))
      ParamName.mortgage_rate = 1/2 :=
  ⟨by decide,
   ((C3_rent_sweep_couples_appreciation tinyParams (1/2)).2.1
      ParamName.mortgage_rate (by decide)).1⟩

/-! ### Investment account (lines 36-37 and 76-77) -/

theorem yearStep_cumulative_buy (p : Params) (y : ℕ) (st : SimState) :
    (yearStep p y st).cumulative_buy_cost =
      st.cumulative_buy_cost +
        (12 * monthly_payment p + st.home_value * p.maintenance_rate +
          st.home_value * p.property_tax_rate - (yearRecord p y st).tax_savings) := rfl

theorem yearStep_cumulative_rent (p : Params) (y : ℕ) (st : SimState) :
    (yearStep p y st).cumulative_rent_cost =
      st.cumulative_rent_cost + 12 * st.rent := rfl

theorem yearStep_investment (p : Params) (y : ℕ) (st : SimState) :
    (yearStep p y st).investment_balance =
      (st.investment_balance +
        max 0 ((12 * monthly_payment p + st.home_value * p.maintenance_rate +
          st.home_value * p.property_tax_rate - (yearRecord p y st).tax_savings) -
          12 * st.rent)) * (1 + p.investment_return_rate) := rfl

theorem runUpTo_investment_nonneg (p : Params)
    (hirr : 0 ≤ p.investment_return_rate) (hhp : 0 ≤ p.home_price)
    (hdpp : 0 ≤ p.down_payment_percent) (hccp : 0 ≤ p.closing_cost_percent) :
    ∀ n, 0 ≤ (runUpTo p n).investment_balance
  | 0 =>
      add_nonneg (mul_nonneg hhp hdpp) (mul_nonneg hhp hccp)
  | n + 1 => by
      rw [runUpTo, yearStep_investment]
      have ih := runUpTo_investment_nonneg p hirr hhp hdpp hccp n
      have h1 : (0 : ℚ) ≤ 1 + p.investment_return_rate := by linarith
      exact mul_nonneg (add_nonneg ih (le_max_left 0 _)) h1

/-- C10: under a non-negative investment return rate (and the scenario
invariant that price and cost fractions are non-negative), the investment
account starts at `down payment + closing cost`, evolves as
`(previous + max(0, annual ownership cost − annual rent)) · (1 + return rate)`
(stated via the cumulative-cost increments of consecutive states), and is
monotonically non-decreasing across years. -/
theorem C10_investment_balance_monotone (p : Params)
    (hirr : 0 ≤ p.investment_return_rate) (hhp : 0 ≤ p.home_price)
    (hdpp : 0 ≤ p.down_payment_percent) (hccp : 0 ≤ p.closing_cost_percent) :
    (runUpTo p 0).investment_balance = down_payment p + closing_cost p ∧
    (∀ n, (runUpTo p (n + 1)).investment_balance =
      ((runUpTo p n).investment_balance +
        max 0 (((runUpTo p (n + 1)).cumulative_buy_cost -
            (runUpTo p n).cumulative_buy_cost) -
          ((runUpTo p (n + 1)).cumulative_rent_cost -
            (runUpTo p n).cumulative_rent_cost))) *
        (1 + p.investment_return_rate)) ∧
    (∀ n, (runUpTo p n).investment_balance ≤ (runUpTo p (n + 1)).investment_balance) := by
  refine ⟨rfl, fun n => ?_, fun n => ?_⟩
  · rw [runUpTo, yearStep_investment, yearStep_cumulative_buy, yearStep_cumulative_rent]
    have harg :
        (runUpTo p n).cumulative_buy_cost +
          (12 * monthly_payment p +
            (runUpTo p n).home_value * p.maintenance_rate +
            (runUpTo p n).home_value * p.property_tax_rate -
            (yearRecord p (n + 1) (runUpTo p n)).tax_savings) -
          (runUpTo p n).cumulative_buy_cost -
          ((runUpTo p n).cumulative_rent_cost + 12 * (runUpTo p n).rent -
            (runUpTo p n).cumulative_rent_cost) =
        12 * monthly_payment p + (runUpTo p n).home_value * p.maintenance_rate +
          (runUpTo p n).home_value * p.property_tax_rate -
          (yearRecord p (n + 1) (runUpTo p n)).tax_savings -
          12 * (runUpTo p n).rent := by
      ring
    rw [harg]
  · rw [runUpTo, yearStep_investment]
    have ih := runUpTo_investment_nonneg p hirr hhp hdpp hccp n
    have h0 : (0 : ℚ) ≤ max 0 ((12 * monthly_payment p +
        (runUpTo p n).home_value * p.maintenance_rate +
        (runUpTo p n).home_value * p.property_tax_rate -
        (yearRecord p (n + 1) (runUpTo p n)).tax_savings) -
        12 * (runUpTo p n).rent) := le_max_left 0 _
    nlinarith [mul_nonneg (add_nonneg ih h0) hirr]

theorem C10_investment_balance_witness :
    (0 : ℚ) ≤ tinyParams.investment_return_rate ∧
    (0 : ℚ) ≤ tinyParams.home_price ∧
    (0 : ℚ) ≤ tinyParams.down_payment_percent ∧
    (0 : ℚ) ≤ tinyParams.closing_cost_percent ∧
    ((runUpTo tinyParams 0).investment_balance =
        down_payment tinyParams + closing_cost tinyParams ∧
      (∀ n, (runUpTo tinyParams (n + 1)).investment_balance =
        ((runUpTo tinyParams n).investment_balance +
          max 0 (((runUpTo tinyParams (n + 1)).cumulative_buy_cost -
              (runUpTo tinyParams n).cumulative_buy_cost) -
            ((runUpTo tinyParams (n + 1)).cumulative_rent_cost -
              (runUpTo tinyParams n).cumulative_rent_cost))) *
          (1 + tinyParams.investment_return_rate)) ∧
      (∀ n, (runUpTo tinyParams n).investment_balance ≤
        (runUpTo tinyParams (n + 1)).investment_balance)) :=
  ⟨le_refl 0, by norm_num [tinyParams], le_refl 0, le_refl 0,
   C10_investment_balance_monotone tinyParams (le_refl 0)
     (by norm_num [tinyParams]) (le_refl 0) (le_refl 0)⟩

/-! ### The end-to-end mortgage-payment figure (spec §8 example) -/

/-- C6 as stated is false: for principal 418000, annual rate 6%, term 30
years, the payment computed by the primitive is not within even a dollar of
the spec's $2,508.24 (it is ≈ $2,506.12, about $2.12 lower). -/
theorem C6_payment_counterexample :
    ¬ |calculate_monthly_mortgage_payment 418000 (6/100) 30 - 250824/100| < 1 := by
  rw [calculate_monthly_mortgage_payment]
  norm_num [abs_lt]

/-- C6 (amended): for the 440000 home with 5% down (financed principal
418000), rate 6%, term 30 years, the monthly payment is approximately
$2,506.12 — exact to within half a cent. -/
theorem C6_payment_amended :
    |calculate_monthly_mortgage_payment 418000 (6/100) 30 - 250612/100| < 1/200 := by
  rw [calculate_monthly_mortgage_payment]
  norm_num [abs_lt]

end RealEstate
